import Mathlib

/-!
Shallow embedding of the 6502-style CPU core of the nes-rust repository.
Machine integers are modelled as Nat (u8, u16) with explicit wrapping where
the Rust code wraps by type conversion, and as Int where the Rust code
computes in i16 (sign-extended casts and arithmetic shifts).
The mature lineage under src/cpu/ (cpu.rs, registers.rs, instructions.rs)
is the source of the definitions.
-/

namespace NesRust

/-- Models the Rust cast chain (v as i8) as i16 for a byte value v. -/
def signed8 (v : Nat) : Int :=
  if v < 128 then (v : Int) else (v : Int) - 256

/-- Bit i of an i16 value under arithmetic right shift, i.e. ((v >> i) and 1)
on a two's-complement integer; arithmetic shift is floor division. -/
def i16Bit (v : Int) (i : Nat) : Int :=
  (v.fdiv (2 ^ i)).emod 2

/-- StatusFlags, from src/cpu/registers.rs (struct FlagsRegister). -/
structure FlagsRegister where
  negative : Bool
  overflow : Bool
  decimal : Bool
  interrupt : Bool
  zero : Bool
  carry : Bool
deriving DecidableEq, Repr

def NEGATIVE_FLAG_BYTE_POSITION : Nat := 7
def OVERFLOW_FLAG_BYTE_POSITION : Nat := 6
def DECIMAL_FLAG_BYTE_POSITION : Nat := 3
def INTERRUPT_FLAG_BYTE_POSITION : Nat := 2
def ZERO_FLAG_BYTE_POSITION : Nat := 1
def CARRY_FLAG_BYTE_POSITION : Nat := 0

/-- impl From of FlagsRegister for u8 (registers.rs lines 147-156): pack. -/
def flagsToByte (flag : FlagsRegister) : Nat :=
  ((if flag.negative then 1 else 0) <<< NEGATIVE_FLAG_BYTE_POSITION) |||
  ((if flag.overflow then 1 else 0) <<< OVERFLOW_FLAG_BYTE_POSITION) |||
  ((if flag.decimal then 1 else 0) <<< DECIMAL_FLAG_BYTE_POSITION) |||
  ((if flag.interrupt then 1 else 0) <<< INTERRUPT_FLAG_BYTE_POSITION) |||
  ((if flag.zero then 1 else 0) <<< ZERO_FLAG_BYTE_POSITION) |||
  ((if flag.carry then 1 else 0) <<< CARRY_FLAG_BYTE_POSITION)

/-- impl From of u8 for FlagsRegister (registers.rs lines 158-176): unpack.
The source reads interrupt and carry from OVERFLOW_FLAG_BYTE_POSITION. -/
def byteToFlags (byte : Nat) : FlagsRegister :=
  { negative := decide (((byte >>> NEGATIVE_FLAG_BYTE_POSITION) &&& 1) ≠ 0)
    overflow := decide (((byte >>> OVERFLOW_FLAG_BYTE_POSITION) &&& 1) ≠ 0)
    decimal := decide (((byte >>> DECIMAL_FLAG_BYTE_POSITION) &&& 1) ≠ 0)
    interrupt := decide (((byte >>> OVERFLOW_FLAG_BYTE_POSITION) &&& 1) ≠ 0)
    zero := decide (((byte >>> ZERO_FLAG_BYTE_POSITION) &&& 1) ≠ 0)
    carry := decide (((byte >>> OVERFLOW_FLAG_BYTE_POSITION) &&& 1) ≠ 0) }

/-- RegisterType, from src/cpu/registers.rs. -/
inductive RegisterType
  | A
  | X
  | Y
  | PC
  | S
  | P
deriving DecidableEq, Repr

/-- Registers, from src/cpu/registers.rs: a, x, y, s, p are u8; pc is u16. -/
structure Registers where
  a : Nat
  x : Nat
  y : Nat
  pc : Nat
  s : Nat
  p : Nat
deriving DecidableEq, Repr

/-- Registers::get_register; the source panics on PC (wildcard arm), which is
never reached by callers; modelled as 0. -/
def Registers.get_register (r : Registers) (reg : RegisterType) : Nat :=
  match reg with
  | .A => r.a
  | .X => r.x
  | .Y => r.y
  | .S => r.s
  | .P => r.p
  | .PC => 0

/-- Registers::set_register; the source panics on PC (wildcard arm), which is
never reached by callers; modelled as the identity. -/
def Registers.set_register (r : Registers) (reg : RegisterType) (value : Nat) : Registers :=
  match reg with
  | .A => { r with a := value }
  | .X => { r with x := value }
  | .Y => { r with y := value }
  | .S => { r with s := value }
  | .P => { r with p := value }
  | .PC => r

/-- Registers::change_pc: self.pc += change, on u16 (wrapping modulo 65536). -/
def Registers.change_pc (r : Registers) (change : Nat) : Registers :=
  { r with pc := (r.pc + change) % 65536 }

/-- Registers::set_pc. -/
def Registers.set_pc (r : Registers) (pc : Nat) : Registers :=
  { r with pc := pc }

/-- Modelled from the spec: Registers::push_stack is called by CPU::push but
is not defined under src; the spec says the stack pointer S is decremented
on push, wrapping modulo 256. -/
def Registers.push_stack (r : Registers) : Registers :=
  { r with s := (r.s + 255) % 256 }

/-- Modelled from the spec: Registers::pop_stack is called by CPU::pop but
is not defined under src; the spec says the stack pointer S is incremented
on pop, wrapping modulo 256. -/
def Registers.pop_stack (r : Registers) : Registers :=
  { r with s := (r.s + 1) % 256 }

/-- InstructionType, from src/cpu/instructions.rs. -/
inductive InstructionType
  | LDA | LDX | LDY | STA | STX | STY
  | TAX | TAY | TXA | TYA
  | TSX | TXS | PHA | PHP | PLA | PLP
  | AND | EOR | ORA | BIT
  | ADC | SBC | CMP | CPX | CPY
  | INC | INX | INY | DEC | DEX | DEY
  | ASL | LSR | ROL | ROR
  | JMP | JSR | RTS
  | BCC | BCS | BEQ | BMI | BNE | BPL | BVC | BVS
  | CLC | CLD | CLI | CLV | SEC | SED | SEI
  | BRK | NOP | RTI
deriving DecidableEq, Repr

/-- AddressingMode, from src/cpu/instructions.rs. -/
inductive AddressingMode
  | Implied
  | Accumulator
  | Immediate (v : Nat)
  | ZeroPage (address : Nat) (register : Nat)
  | Relative (v : Nat)
  | Absolute (address : Nat) (register : Nat)
  | Indirect (address : Nat)
  | IndexedIndirect (address : Nat)
  | IndirectIndexed (address : Nat)
deriving DecidableEq, Repr

/-- Instruction, from src/cpu/instructions.rs. -/
structure Instruction where
  instruction : InstructionType
  address : AddressingMode
deriving DecidableEq, Repr

/-- Memory::set_byte over a functional 64 KiB byte store. -/
def setByte (m : Nat → Nat) (addr v : Nat) : Nat → Nat :=
  fun a => if a = addr then v else m a

/-- The CPU state: registers, status flags and the shared memory. -/
structure CPUState where
  regs : Registers
  flags : FlagsRegister
  mem : Nat → Nat

/-- CPU::load (cpu.rs lines 313-317). -/
def load (st : CPUState) (register : RegisterType) (value : Nat) : CPUState :=
  { st with
    regs := st.regs.set_register register value
    flags := { st.flags with
      zero := decide (value = 0)
      negative := decide (((value >>> 7) &&& 1) = 1) } }

/-- CPU::store (cpu.rs lines 319-322). -/
def store (st : CPUState) (register : RegisterType) (address : Nat) : CPUState :=
  { st with mem := setByte st.mem address (st.regs.get_register register) }

/-- CPU::transfer (cpu.rs lines 325-330). -/
def transfer (st : CPUState) (src dst : RegisterType) : CPUState :=
  let register_value := st.regs.get_register src
  { st with
    regs := st.regs.set_register dst register_value
    flags := { st.flags with
      zero := decide (register_value = 0)
      negative := decide (((register_value >>> 7) &&& 1) = 1) } }

/-- CPU::push (cpu.rs lines 333-337): write at 0x0100 + S, then decrement S. -/
def push (st : CPUState) (value : Nat) : CPUState :=
  let address := st.regs.get_register .S + 0x0100
  let st := { st with mem := setByte st.mem address value }
  { st with regs := st.regs.push_stack }

/-- CPU::pop (cpu.rs lines 339-344): read at 0x0100 + S, then increment S. -/
def pop (st : CPUState) : Nat × CPUState :=
  let address := st.regs.get_register .S + 0x0100
  let value := st.mem address
  (value, { st with regs := st.regs.pop_stack })

/-- CPU::logical_and (cpu.rs lines 347-352). -/
def logical_and (st : CPUState) (reg_value mem_value : Nat) : CPUState × Nat :=
  let and_result := reg_value &&& mem_value
  ({ st with flags := { st.flags with
      zero := decide (and_result = 0)
      negative := decide (((and_result >>> 7) &&& 1) = 1) } },
   and_result)

/-- CPU::logical_xor (cpu.rs lines 354-359). -/
def logical_xor (st : CPUState) (reg_value mem_value : Nat) : CPUState × Nat :=
  let xor_result := reg_value ^^^ mem_value
  ({ st with flags := { st.flags with
      zero := decide (xor_result = 0)
      negative := decide (((xor_result >>> 7) &&& 1) = 1) } },
   xor_result)

/-- CPU::logical_or (cpu.rs lines 361-366). -/
def logical_or (st : CPUState) (reg_value mem_value : Nat) : CPUState × Nat :=
  let or_result := reg_value ||| mem_value
  ({ st with flags := { st.flags with
      zero := decide (or_result = 0)
      negative := decide (((or_result >>> 7) &&& 1) = 1) } },
   or_result)

/-- CPU::logical_bit_test (cpu.rs lines 368-373). -/
def logical_bit_test (st : CPUState) (reg_value mem_value : Nat) : CPUState :=
  let and_result := reg_value &&& mem_value
  { st with flags := { st.flags with
      zero := decide (and_result = 0)
      overflow := decide (((mem_value >>> 6) &&& 1) = 1)
      negative := decide (((mem_value >>> 7) &&& 1) = 1) } }

/-- CPU::arithmetic_add (cpu.rs lines 376-387): the sum is computed on the
sign-extended i16 values, and all flag bits are taken from that signed sum. -/
def arithmetic_add (st : CPUState) (reg_value mem_value : Nat) : CPUState × Nat :=
  let carry : Int := if st.flags.carry then 1 else 0
  let signed_reg_value : Int := signed8 reg_value
  let signed_mem_value : Int := signed8 mem_value
  let sum : Int := signed_reg_value + signed_mem_value + carry
  let unsigned_sum : Nat := (sum.emod 256).toNat
  ({ st with flags := { st.flags with
      carry := decide (i16Bit sum 8 = 1)
      zero := decide (unsigned_sum = 0)
      overflow := decide (i16Bit sum 8 ≠ i16Bit sum 7)
      negative := decide (i16Bit sum 7 = 1) } },
   unsigned_sum)

/-- CPU::arithmetic_sub (cpu.rs lines 389-400). -/
def arithmetic_sub (st : CPUState) (reg_value mem_value : Nat) : CPUState × Nat :=
  let carry : Int := if st.flags.carry then 1 else 0
  let signed_reg_value : Int := signed8 reg_value
  let signed_mem_value : Int := signed8 mem_value
  let sub : Int := signed_reg_value - signed_mem_value - (1 - carry)
  let unsigned_sub : Nat := (sub.emod 256).toNat
  ({ st with flags := { st.flags with
      carry := decide (i16Bit sub 8 = 0)
      zero := decide (unsigned_sub = 0)
      overflow := decide (i16Bit sub 8 ≠ i16Bit sub 7)
      negative := decide (i16Bit sub 7 = 1) } },
   unsigned_sub)

/-- CPU::arithmetic_cmp (cpu.rs lines 402-409): carry and zero come from a
signed comparison of the sign-extended i16 values. -/
def arithmetic_cmp (st : CPUState) (reg_value mem_value : Nat) : CPUState :=
  let signed_reg_value : Int := signed8 reg_value
  let signed_mem_value : Int := signed8 mem_value
  let sub : Int := signed_reg_value - signed_mem_value
  { st with flags := { st.flags with
      carry := decide (signed_reg_value ≥ signed_mem_value)
      zero := decide (signed_reg_value = signed_mem_value)
      negative := decide (i16Bit sub 7 = 1) } }

/-- CPU::increment (cpu.rs lines 412-417). -/
def increment (st : CPUState) (value : Nat) : CPUState × Nat :=
  let incremented := (value + 1) % 256
  ({ st with flags := { st.flags with
      zero := decide (incremented = 0)
      negative := decide (((incremented >>> 7) &&& 1) = 1) } },
   incremented)

/-- CPU::decrement (cpu.rs lines 419-424): ((value as u16) - 1) and 0xff,
where the u16 subtraction wraps modulo 65536. -/
def decrement (st : CPUState) (value : Nat) : CPUState × Nat :=
  let decremented := ((value + 65535) % 65536) % 256
  ({ st with flags := { st.flags with
      zero := decide (decremented = 0)
      negative := decide (((decremented >>> 7) &&& 1) = 1) } },
   decremented)

/-- CPU::pc_inc (cpu.rs lines 463-465): a fixed change_pc(1). -/
def pc_inc (st : CPUState) : CPUState :=
  { st with regs := st.regs.change_pc 1 }

/-- CPU::branch (cpu.rs lines 467-471): change_pc(address) when the flag is
set, otherwise no state change at all. -/
def branch (st : CPUState) (address : Nat) (flag : Bool) : CPUState :=
  if flag then { st with regs := st.regs.change_pc address } else st

/-- CPU::resolve_addressing_mode (cpu.rs lines 475-518). In Relative mode the
source strips bit 7, applies the u8 negation trick (not value) + 1 and then
zero-extends the u8 result to u16; the u8 additions wrap modulo 256. -/
def resolve_addressing_mode (st : CPUState) (addressing_mode : AddressingMode) : Nat × Nat :=
  match addressing_mode with
  | .Relative relative =>
    let signed := decide (((relative >>> 7) &&& 1) = 1)
    let value := relative &&& 0x7f
    let signed_value := if signed then (256 - value) % 256 else value
    (signed_value, signed_value)
  | .Immediate immediate => (immediate, immediate)
  | .ZeroPage address register =>
    let register_value := if register = 1 then st.regs.get_register .X
      else if register = 2 then st.regs.get_register .Y else 0
    let new_address := (address + register_value) % 256
    (st.mem new_address, new_address)
  | .Absolute address register =>
    let register_value := if register = 1 then st.regs.get_register .X
      else if register = 2 then st.regs.get_register .Y else 0
    let new_address := (address + register_value) % 65536
    (st.mem new_address, new_address)
  | _ => (0, 0)

/-- CPU::execute (cpu.rs lines 24-310). -/
def execute (st : CPUState) (instruction : Instruction) : CPUState :=
  let (address_value, address) := resolve_addressing_mode st instruction.address
  match instruction.instruction with
  | .LDA => pc_inc (load st .A address_value)
  | .LDX => pc_inc (load st .X address_value)
  | .LDY => pc_inc (load st .Y address_value)
  | .STA => pc_inc (store st .A address)
  | .STX => pc_inc (store st .X address)
  | .STY => pc_inc (store st .Y address)
  | .TAX => pc_inc (transfer st .A .X)
  | .TAY => pc_inc (transfer st .A .Y)
  | .TXA => pc_inc (transfer st .X .A)
  | .TYA => pc_inc (transfer st .Y .A)
  | .TSX =>
    let stack_pointer := st.regs.get_register .S
    let st := { st with
      regs := st.regs.set_register .X stack_pointer
      flags := { st.flags with
        zero := decide (stack_pointer = 0)
        negative := decide (((stack_pointer >>> 7) &&& 1) = 1) } }
    pc_inc st
  | .TXS =>
    let value := st.regs.get_register .X
    pc_inc { st with regs := st.regs.set_register .S value }
  | .PHA =>
    let value := st.regs.get_register .A
    pc_inc (push st value)
  | .PHP =>
    let status_flags := flagsToByte st.flags
    pc_inc (push st status_flags)
  | .PLA =>
    let (value, st) := pop st
    let st := { st with
      regs := st.regs.set_register .A value
      flags := { st.flags with
        zero := decide (value = 0)
        negative := decide (((value >>> 7) &&& 1) = 1) } }
    pc_inc st
  | .PLP =>
    -- Modelled from the spec: FlagsRegister::load is called here but not
    -- defined under src; the spec says PLP unpacks the popped byte back
    -- into StatusFlags.
    let (value, st) := pop st
    pc_inc { st with flags := byteToFlags value }
  | .AND =>
    let (st, and_result) := logical_and st (st.regs.get_register .A) address_value
    pc_inc { st with regs := st.regs.set_register .A and_result }
  | .EOR =>
    let (st, xor_result) := logical_xor st (st.regs.get_register .A) address_value
    pc_inc { st with regs := st.regs.set_register .A xor_result }
  | .ORA =>
    let (st, or_result) := logical_or st (st.regs.get_register .A) address_value
    pc_inc { st with regs := st.regs.set_register .A or_result }
  | .BIT =>
    pc_inc (logical_bit_test st (st.regs.get_register .A) address_value)
  | .ADC =>
    let (st, add_result) := arithmetic_add st (st.regs.get_register .A) address_value
    pc_inc { st with regs := st.regs.set_register .A add_result }
  | .SBC =>
    let (st, sub_result) := arithmetic_sub st (st.regs.get_register .A) address_value
    pc_inc { st with regs := st.regs.set_register .A sub_result }
  | .CMP =>
    pc_inc (arithmetic_cmp st (st.regs.get_register .A) address_value)
  | .CPX =>
    pc_inc (arithmetic_cmp st (st.regs.get_register .X) address_value)
  | .CPY =>
    pc_inc (arithmetic_cmp st (st.regs.get_register .Y) address_value)
  | .INC =>
    let (st, increment_result) := increment st address_value
    pc_inc { st with mem := setByte st.mem address increment_result }
  | .INX =>
    let (st, increment_result) := increment st (st.regs.get_register .X)
    pc_inc { st with regs := st.regs.set_register .X increment_result }
  | .INY =>
    let (st, increment_result) := increment st (st.regs.get_register .Y)
    pc_inc { st with regs := st.regs.set_register .Y increment_result }
  | .DEC =>
    let (st, decrement_result) := decrement st address_value
    pc_inc { st with mem := setByte st.mem address decrement_result }
  | .DEX =>
    let (st, decrement_result) := decrement st (st.regs.get_register .X)
    pc_inc { st with regs := st.regs.set_register .X decrement_result }
  | .DEY =>
    let (st, decrement_result) := decrement st (st.regs.get_register .Y)
    pc_inc { st with regs := st.regs.set_register .Y decrement_result }
  | .ASL => pc_inc st
  | .LSR => pc_inc st
  | .ROL => pc_inc st
  | .ROR => pc_inc st
  | .JMP => { st with regs := st.regs.set_pc address }
  | .JSR =>
    let pc := st.regs.pc
    let msb := (pc &&& 0xff00) >>> 8
    let lsb := pc &&& 0x00ff
    let st := push st msb
    let st := push st lsb
    { st with regs := st.regs.set_pc address }
  | .RTS =>
    let (lsb, st) := pop st
    let (msb, st) := pop st
    let addr := msb * 256 + lsb
    { st with regs := st.regs.set_pc addr }
  | .BCC => branch st address (!st.flags.carry)
  | .BCS => branch st address st.flags.carry
  | .BEQ => branch st address st.flags.zero
  | .BMI => branch st address st.flags.negative
  | .BNE => branch st address (!st.flags.zero)
  | .BPL => branch st address (!st.flags.negative)
  | .BVC => branch st address (!st.flags.overflow)
  | .BVS => branch st address st.flags.overflow
  | .CLC => { st with flags := { st.flags with carry := false } }
  | .CLD => { st with flags := { st.flags with decimal := false } }
  | .CLI => { st with flags := { st.flags with interrupt := false } }
  | .CLV => { st with flags := { st.flags with overflow := false } }
  | .SEC => { st with flags := { st.flags with carry := true } }
  | .SED => { st with flags := { st.flags with decimal := true } }
  | .SEI => { st with flags := { st.flags with interrupt := true } }
  | .BRK => st
  | .NOP => pc_inc st
  | .RTI => st

/-- The opcode table of InstructionReader::new (instructions.rs lines 11-67):
the zip of the opcode list with the (name, mode) list, in source order. -/
def instructionPairs : List (String × String × String) :=
  [("69", "ADC", "Immediate"), ("65", "ADC", "ZeroPage"), ("75", "ADC", "ZeroPage,X"),
   ("6D", "ADC", "Absolute"), ("7D", "ADC", "Absolute,X"), ("79", "ADC", "Absolute,Y"),
   ("61", "ADC", "(Indirect,X)"), ("71", "ADC", "(Indirect),Y"),
   ("29", "AND", "Immediate"), ("25", "AND", "ZeroPage"), ("35", "AND", "ZeroPage,X"),
   ("2D", "AND", "Absolute"), ("3D", "AND", "Absolute,X"), ("39", "AND", "Absolute,Y"),
   ("21", "AND", "(Indirect,X)"), ("31", "AND", "(Indirect),Y"),
   ("0A", "ASL", "Accumulator"), ("06", "ASL", "ZeroPage"), ("16", "ASL", "ZeroPage,X"),
   ("0E", "ASL", "Absolute"), ("1E", "ASL", "Absolute,X"),
   ("90", "BCC", "Relative"), ("B0", "BCS", "Relative"), ("F0", "BEQ", "Relative"),
   ("24", "BIT", "ZeroPage"), ("2C", "BIT", "Absolute"),
   ("30", "BMI", "Relative"), ("D0", "BNE", "Relative"), ("10", "BPL", "Relative"),
   ("00", "BRK", "Implied"), ("50", "BVC", "Relative"), ("70", "BVS", "Relative"),
   ("18", "CLC", "Implied"), ("D8", "CLD", "Implied"), ("58", "CLI", "Implied"),
   ("B8", "CLV", "Implied"),
   ("C9", "CMP", "Immediate"), ("C5", "CMP", "ZeroPage"), ("D5", "CMP", "ZeroPage,X"),
   ("CD", "CMP", "Absolute"), ("DD", "CMP", "Absolute,X"), ("D9", "CMP", "Absolute,Y"),
   ("C1", "CMP", "(Indirect,X)"), ("D1", "CMP", "(Indirect),Y"),
   ("E0", "CPX", "Immediate"), ("E4", "CPX", "ZeroPage"), ("EC", "CPX", "Absolute"),
   ("C0", "CPY", "Immediate"), ("C4", "CPY", "ZeroPage"), ("CC", "CPY", "Absolute"),
   ("C6", "DEC", "ZeroPage"), ("D6", "DEC", "ZeroPage,X"), ("CE", "DEC", "Absolute"),
   ("DE", "DEC", "Absolute,X"), ("CA", "DEX", "Implied"), ("88", "DEY", "Implied"),
   ("49", "EOR", "Immediate"), ("45", "EOR", "ZeroPage"), ("55", "EOR", "ZeroPage,X"),
   ("4D", "EOR", "Absolute"), ("5D", "EOR", "Absolute,X"), ("59", "EOR", "Absolute,Y"),
   ("41", "EOR", "(Indirect,X)"), ("51", "EOR", "(Indirect),Y"),
   ("E6", "INC", "ZeroPage"), ("F6", "INC", "ZeroPage,X"), ("EE", "INC", "Absolute"),
   ("FE", "INC", "Absolute,X"), ("E8", "INX", "Implied"), ("C8", "INY", "Implied"),
   ("4C", "JMP", "Absolute"), ("6C", "JMP", "Indirect"), ("20", "JSR", "Absolute"),
   ("A9", "LDA", "Immediate"), ("A5", "LDA", "ZeroPage"), ("B5", "LDA", "ZeroPage,X"),
   ("AD", "LDA", "Absolute"), ("BD", "LDA", "Absolute,X"), ("B9", "LDA", "Absolute,Y"),
   ("A1", "LDA", "(Indirect,X)"), ("B1", "LDA", "(Indirect),Y"),
   ("A2", "LDX", "Immediate"), ("A6", "LDX", "ZeroPage"), ("B6", "LDX", "ZeroPage,Y"),
   ("AE", "LDX", "Absolute"), ("BE", "LDX", "Absolute,Y"),
   ("A0", "LDY", "Immediate"), ("A4", "LDY", "ZeroPage"), ("B4", "LDY", "ZeroPage,X"),
   ("AC", "LDY", "Absolute"), ("BC", "LDY", "Absolute,X"),
   ("4A", "LSR", "Accumulator"), ("46", "LSR", "ZeroPage"), ("56", "LSR", "ZeroPage,X"),
   ("4E", "LSR", "Absolute"), ("5E", "LSR", "Absolute,X"),
   ("EA", "NOP", "Implied"),
   ("09", "ORA", "Immediate"), ("05", "ORA", "ZeroPage"), ("15", "ORA", "ZeroPage,X"),
   ("0D", "ORA", "Absolute"), ("1D", "ORA", "Absolute,X"), ("19", "ORA", "Absolute,Y"),
   ("01", "ORA", "(Indirect,X)"), ("11", "ORA", "(Indirect),Y"),
   ("48", "PHA", "Implied"), ("08", "PHP", "Implied"), ("68", "PLA", "Implied"),
   ("28", "PLP", "Implied"),
   ("2A", "ROL", "Accumulator"), ("26", "ROL", "ZeroPage"), ("36", "ROL", "ZeroPage,X"),
   ("2E", "ROL", "Absolute"), ("3E", "ROL", "Absolute,X"),
   ("6A", "ROR", "Accumulator"), ("66", "ROR", "ZeroPage"), ("76", "ROR", "ZeroPage,X"),
   ("6E", "ROR", "Absolute"), ("7E", "ROR", "Absolute,X"),
   ("40", "RTI", "Implied"), ("60", "RTS", "Implied"),
   ("E9", "SBC", "Immediate"), ("E5", "SBC", "ZeroPage"), ("F5", "SBC", "ZeroPage,X"),
   ("ED", "SBC", "Absolute"), ("FD", "SBC", "Absolute,X"), ("F9", "SBC", "Absolute,Y"),
   ("E1", "SBC", "(Indirect,X)"), ("F1", "SBC", "(Indirect),Y"),
   ("38", "SEC", "Implied"), ("F8", "SED", "Implied"), ("78", "SEI", "Implied"),
   ("85", "STA", "ZeroPage"), ("95", "STA", "ZeroPage,X"), ("8D", "STA", "Absolute"),
   ("9D", "STA", "Absolute,X"), ("99", "STA", "Absolute,Y"), ("81", "STA", "(Indirect,X)"),
   ("91", "STA", "(Indirect),Y"),
   ("86", "STX", "ZeroPage"), ("96", "STX", "ZeroPage,Y"), ("8E", "STX", "Absolute"),
   ("84", "STY", "ZeroPage"), ("94", "STY", "ZeroPage,X"), ("8C", "STY", "Absolute"),
   ("AA", "TAX", "Implied"), ("A8", "TAY", "Implied"), ("BA", "TSX", "Implied"),
   ("8A", "TXA", "Implied"), ("9A", "TXS", "Implied"), ("98", "TYA", "Implied")]

/-- The EnumFromStr derive on InstructionType: mnemonic text to variant. -/
def nameToType (s : String) : Option InstructionType :=
  match s with
  | "LDA" => some .LDA
  | "LDX" => some .LDX
  | "LDY" => some .LDY
  | "STA" => some .STA
  | "STX" => some .STX
  | "STY" => some .STY
  | "TAX" => some .TAX
  | "TAY" => some .TAY
  | "TXA" => some .TXA
  | "TYA" => some .TYA
  | "TSX" => some .TSX
  | "TXS" => some .TXS
  | "PHA" => some .PHA
  | "PHP" => some .PHP
  | "PLA" => some .PLA
  | "PLP" => some .PLP
  | "AND" => some .AND
  | "EOR" => some .EOR
  | "ORA" => some .ORA
  | "BIT" => some .BIT
  | "ADC" => some .ADC
  | "SBC" => some .SBC
  | "CMP" => some .CMP
  | "CPX" => some .CPX
  | "CPY" => some .CPY
  | "INC" => some .INC
  | "INX" => some .INX
  | "INY" => some .INY
  | "DEC" => some .DEC
  | "DEX" => some .DEX
  | "DEY" => some .DEY
  | "ASL" => some .ASL
  | "LSR" => some .LSR
  | "ROL" => some .ROL
  | "ROR" => some .ROR
  | "JMP" => some .JMP
  | "JSR" => some .JSR
  | "RTS" => some .RTS
  | "BCC" => some .BCC
  | "BCS" => some .BCS
  | "BEQ" => some .BEQ
  | "BMI" => some .BMI
  | "BNE" => some .BNE
  | "BPL" => some .BPL
  | "BVC" => some .BVC
  | "BVS" => some .BVS
  | "CLC" => some .CLC
  | "CLD" => some .CLD
  | "CLI" => some .CLI
  | "CLV" => some .CLV
  | "SEC" => some .SEC
  | "SED" => some .SED
  | "SEI" => some .SEI
  | "BRK" => some .BRK
  | "NOP" => some .NOP
  | "RTI" => some .RTI
  | _ => none

/-- InstructionReader::mode_to_enum (instructions.rs lines 86-102): the first
operand byte op1 becomes the high byte of a two-byte address. The `as u8`
casts truncate modulo 256. -/
def mode_to_enum (mode : String) (op1 op2 : Nat) : AddressingMode :=
  match mode with
  | "Accumulator" => .Accumulator
  | "Immediate" => .Immediate (op1 % 256)
  | "ZeroPage" => .ZeroPage (op1 % 256) 0
  | "ZeroPage,X" => .ZeroPage (op1 % 256) 1
  | "ZeroPage,Y" => .ZeroPage (op1 % 256) 2
  | "Relative" => .Relative (op1 % 256)
  | "Absolute" => .Absolute (op1 * 256 + op2) 0
  | "Absolute,X" => .Absolute (op1 * 256 + op2) 1
  | "Absolute,Y" => .Absolute (op1 * 256 + op2) 2
  | "Indirect" => .Indirect (op1 * 256 + op2)
  | "(Indirect,X)" => .IndexedIndirect (op1 % 256)
  | "(Indirect),Y" => .IndirectIndexed (op1 % 256)
  | _ => .Implied

/-- The value of one hexadecimal digit character, upper or lower case. -/
def hexDigitVal (c : Char) : Option Nat :=
  if 48 ≤ c.toNat ∧ c.toNat ≤ 57 then some (c.toNat - 48)
  else if 97 ≤ c.toNat ∧ c.toNat ≤ 102 then some (c.toNat - 97 + 10)
  else if 65 ≤ c.toNat ∧ c.toNat ≤ 70 then some (c.toNat - 65 + 10)
  else none

/-- u16::from_str_radix with radix 16 on a two-character slice: an optional
leading sign is accepted, and a minus sign only ever yields zero for an
unsigned target. -/
def fromStrRadix16Two (c1 c2 : Char) : Option Nat :=
  if c1 = '+' then hexDigitVal c2
  else if c1 = '-' then
    match hexDigitVal c2 with
    | some 0 => some 0
    | _ => none
  else
    match hexDigitVal c1, hexDigitVal c2 with
    | some a, some b => some (a * 16 + b)
    | _, _ => none

/-- The outcome of a failed InstructionReader::read. Each constructor marks a
Rust panic site: read has no error channel (it returns Instruction), so every
failure aborts via panic. -/
inductive ReadErr
  | operandPanic
  | opcodePanic
  | namePanic
deriving DecidableEq, Repr

/-- InstructionReader::read (instructions.rs lines 70-84): left-justified
zero padding to width 6, slice out opcode and two operand byte fields, parse
the operands as hex (unwrap), look the opcode up in the table (the HashMap
index panics on a missing key), parse the mnemonic (unwrap), and build the
addressing mode. -/
def readChars (s : List Char) : Except ReadErr Instruction :=
  let padded := s ++ List.replicate (6 - s.length) '0'
  match padded with
  | c0 :: c1 :: c2 :: c3 :: c4 :: c5 :: _ =>
    match fromStrRadix16Two c2 c3 with
    | none => .error .operandPanic
    | some operand1 =>
      match fromStrRadix16Two c4 c5 with
      | none => .error .operandPanic
      | some operand2 =>
        match instructionPairs.lookup (String.mk [c0, c1]) with
        | none => .error .opcodePanic
        | some (inst_name, inst_mode) =>
          match nameToType inst_name with
          | none => .error .namePanic
          | some instruction =>
            .ok { instruction := instruction
                  address := mode_to_enum inst_mode operand1 operand2 }
  | _ => .error .operandPanic

/-- InstructionReader::read on a string input. -/
def read (s : String) : Except ReadErr Instruction :=
  readChars s.data

/-- A 64 KiB memory with every cell zero (Memory::new). -/
def zeroedMem : Nat → Nat := fun _ => 0

/-- The flag state of FlagsRegister::new: all six flags clear. -/
def flagsAllOff : FlagsRegister := ⟨false, false, false, false, false, false⟩

/-- A freshly constructed CPU over zeroed memory (CPU::new over Memory::new). -/
def freshState : CPUState := ⟨⟨0, 0, 0, 0, 0, 0⟩, flagsAllOff, zeroedMem⟩

/-- A sample CPU state, used to instantiate quantified theorems. -/
def sampleState : CPUState := ⟨⟨200, 3, 150, 77, 9, 0⟩, flagsAllOff, zeroedMem⟩

theorem i16Bit_eq_ediv (v : Int) (i : Nat) : i16Bit v i = (v / ((2 : Int) ^ i)) % 2 := by
  unfold i16Bit
  rw [Int.fdiv_eq_ediv _ (by positivity)]
  rfl

theorem signed8_eq_iff (r m : Nat) (hr : r < 256) (hm : m < 256) :
    (signed8 r = signed8 m) ↔ r = m := by
  unfold signed8
  split_ifs <;> omega

theorem i16Bit_sub_seven_iff (r m : Nat) (hr : r < 256) (hm : m < 256) :
    (i16Bit (signed8 r - signed8 m) 7 = 1) ↔ 128 ≤ (r + 256 - m) % 256 := by
  rw [i16Bit_eq_ediv]
  unfold signed8
  split_ifs <;> omega

/-- C1: the spec requires add-with-carry to set Carry iff the unsigned sum
a + b + carry exceeds 255; in particular LDA 0xFF then ADC 0x01 with Carry
clear must end with A = 0, Carry set, Zero set, Overflow clear. The code
takes the carry bit from the sign-extended i16 sum, so this run ends with
Carry clear even though 0xFF + 0x01 + 0 = 256 > 255; result byte, Zero and
Overflow do match the claim. -/
theorem c1_adc_carry_code_bug :
    (let st1 := execute freshState ⟨.LDA, .Immediate 0xFF⟩
     let st2 := execute st1 ⟨.ADC, .Immediate 0x01⟩
     st2.regs.a = 0x00 ∧ st2.flags.zero = true ∧ st2.flags.overflow = false ∧
       st2.flags.carry = false ∧ 0xFF + 0x01 + 0 > 255) := by
  decide

/-- C2: packing then unpacking does not return the original six flags: the
unpack path reads both the Interrupt and the Carry flag from bit 6 (the
Overflow position), so a flag set with only Carry true packs to byte 1 but
round-trips to all-false, while byte 0x40 unpacks with Overflow, Interrupt
and Carry all true. -/
theorem c2_flags_roundtrip_code_bug :
    (let f : FlagsRegister := ⟨false, false, false, false, false, true⟩
     flagsToByte f = 1 ∧ byteToFlags (flagsToByte f) ≠ f ∧
       (byteToFlags (flagsToByte f)).carry = false ∧
       (byteToFlags 0x40).interrupt = true ∧ (byteToFlags 0x40).carry = true) := by
  decide

/-- C3: push does write the value to 0x0100 + S and then decrement S, but
pop reads 0x0100 + S before incrementing S, so push(0x42) from S = 10 over
zeroed memory followed by pop returns the untouched cell 0x0109 (value 0)
rather than 0x42, even though S is restored to 10. -/
theorem c3_stack_roundtrip_code_bug :
    (let st : CPUState := ⟨⟨0, 0, 0, 0, 10, 0⟩, flagsAllOff, zeroedMem⟩
     let st1 := push st 0x42
     st1.mem 0x010A = 0x42 ∧ st1.regs.s = 9 ∧ (pop st1).2.regs.s = 10 ∧
       (pop st1).1 = 0 ∧ (pop st1).1 ≠ 0x42) := by
  decide

/-- C4: from PC = 0x1234 and S = 0xFF over zeroed memory, JSR 0x2000 pushes
0x12 then 0x34 and jumps; the following RTS pops from the wrong cells
(because pop reads before incrementing S) and sets PC to 0x3400, not to the
address 0x1237 of the instruction following a three-byte JSR. -/
theorem c4_jsr_rts_code_bug :
    (let st : CPUState := ⟨⟨0, 0, 0, 0x1234, 0xFF, 0⟩, flagsAllOff, zeroedMem⟩
     let st1 := execute st ⟨.JSR, .Absolute 0x2000 0⟩
     let st2 := execute st1 ⟨.RTS, .Implied⟩
     st1.regs.pc = 0x2000 ∧ st1.mem 0x01FF = 0x12 ∧ st1.mem 0x01FE = 0x34 ∧
       st1.regs.s = 0xFD ∧ st2.regs.pc = 0x3400 ∧ st2.regs.pc ≠ 0x1237) := by
  decide

/-- C5: with Zero set and relative operand 0xFE, BEQ from PC = 0x1000 ends
at 0x1082 (the resolver turns 0xFE into the zero-extended displacement
0x82, added to the unadvanced PC), not at 0x1000 = P + 2 - 2 as the claim
requires; with Zero clear the PC stays at 0x1000 instead of advancing by
the instruction length to 0x1002. -/
theorem c5_beq_displacement_code_bug :
    (let stT : CPUState := ⟨⟨0, 0, 0, 0x1000, 0, 0⟩, ⟨false, false, false, false, true, false⟩, zeroedMem⟩
     let stF : CPUState := ⟨⟨0, 0, 0, 0x1000, 0, 0⟩, flagsAllOff, zeroedMem⟩
     (execute stT ⟨.BEQ, .Relative 0xFE⟩).regs.pc = 0x1082 ∧
       (execute stT ⟨.BEQ, .Relative 0xFE⟩).regs.pc ≠ 0x1000 ∧
       (execute stF ⟨.BEQ, .Relative 0xFE⟩).regs.pc = 0x1000 ∧
       (execute stF ⟨.BEQ, .Relative 0xFE⟩).regs.pc ≠ 0x1002) := by
  decide

/-- C6: executing the two-byte instruction LDA 0x01 immediate from
PC = 0x4000 advances PC by the fixed increment of pc_inc to 0x4001, not by
the encoded instruction length 2 to 0x4002. -/
theorem c6_pc_advance_code_bug :
    (let st : CPUState := ⟨⟨0, 0, 0, 0x4000, 0, 0⟩, flagsAllOff, zeroedMem⟩
     (execute st ⟨.LDA, .Immediate 0x01⟩).regs.pc = 0x4001 ∧
       (execute st ⟨.LDA, .Immediate 0x01⟩).regs.pc ≠ 0x4002) := by
  decide

/-- C7: decoding the unknown opcode byte 0x02 aborts at the opcode-table
index and the malformed hex text 69G000 aborts at the operand parse; both
are Rust panics (read has no error channel in its return type), modelled
here as the two panic-site outcomes, so no DecodeError or ParseError value
is ever surfaced to the caller. -/
theorem c7_read_panic_code_bug :
    read "020000" = .error .opcodePanic ∧ read "69G000" = .error .operandPanic :=
  ⟨rfl, rfl⟩

/-- C8 as stated fails on the code: with A = 0x80 and operand 0x01 the
unsigned comparison 128 greater-or-equal 1 holds, yet CMP leaves Carry
clear, because the code compares the sign-extended values -128 and 1. -/
theorem c8_cmp_unsigned_counterexample :
    (let st : CPUState := ⟨⟨0x80, 0, 0, 0, 0, 0⟩, flagsAllOff, zeroedMem⟩
     (execute st ⟨.CMP, .Immediate 0x01⟩).flags.carry = false ∧ (0x80 : Nat) ≥ 0x01) := by
  decide

/-- C8 amended: CMP, CPX and CPY set Carry iff the named register is
greater than or equal to the operand under two's-complement signed
interpretation (not unsigned); Zero iff register equals operand, Negative
is bit 7 of the byte difference, and registers A, X, Y, S and memory are
unchanged, exactly as the claim states. -/
theorem c8_compare_signed_amended (st : CPUState) (m : Nat)
    (ha : st.regs.a < 256) (hx : st.regs.x < 256) (hy : st.regs.y < 256)
    (hm : m < 256) :
    ((execute st ⟨.CMP, .Immediate m⟩).flags.carry = decide (signed8 st.regs.a ≥ signed8 m) ∧
      (execute st ⟨.CMP, .Immediate m⟩).flags.zero = decide (st.regs.a = m) ∧
      (execute st ⟨.CMP, .Immediate m⟩).flags.negative = decide (128 ≤ (st.regs.a + 256 - m) % 256) ∧
      (execute st ⟨.CMP, .Immediate m⟩).regs.a = st.regs.a ∧
      (execute st ⟨.CMP, .Immediate m⟩).regs.x = st.regs.x ∧
      (execute st ⟨.CMP, .Immediate m⟩).regs.y = st.regs.y ∧
      (execute st ⟨.CMP, .Immediate m⟩).regs.s = st.regs.s ∧
      (execute st ⟨.CMP, .Immediate m⟩).mem = st.mem) ∧
    ((execute st ⟨.CPX, .Immediate m⟩).flags.carry = decide (signed8 st.regs.x ≥ signed8 m) ∧
      (execute st ⟨.CPX, .Immediate m⟩).flags.zero = decide (st.regs.x = m) ∧
      (execute st ⟨.CPX, .Immediate m⟩).flags.negative = decide (128 ≤ (st.regs.x + 256 - m) % 256) ∧
      (execute st ⟨.CPX, .Immediate m⟩).regs.a = st.regs.a ∧
      (execute st ⟨.CPX, .Immediate m⟩).regs.x = st.regs.x ∧
      (execute st ⟨.CPX, .Immediate m⟩).regs.y = st.regs.y ∧
      (execute st ⟨.CPX, .Immediate m⟩).regs.s = st.regs.s ∧
      (execute st ⟨.CPX, .Immediate m⟩).mem = st.mem) ∧
    ((execute st ⟨.CPY, .Immediate m⟩).flags.carry = decide (signed8 st.regs.y ≥ signed8 m) ∧
      (execute st ⟨.CPY, .Immediate m⟩).flags.zero = decide (st.regs.y = m) ∧
      (execute st ⟨.CPY, .Immediate m⟩).flags.negative = decide (128 ≤ (st.regs.y + 256 - m) % 256) ∧
      (execute st ⟨.CPY, .Immediate m⟩).regs.a = st.regs.a ∧
      (execute st ⟨.CPY, .Immediate m⟩).regs.x = st.regs.x ∧
      (execute st ⟨.CPY, .Immediate m⟩).regs.y = st.regs.y ∧
      (execute st ⟨.CPY, .Immediate m⟩).regs.s = st.regs.s ∧
      (execute st ⟨.CPY, .Immediate m⟩).mem = st.mem) := by
  refine ⟨⟨rfl, ?_, ?_, rfl, rfl, rfl, rfl, rfl⟩,
          ⟨rfl, ?_, ?_, rfl, rfl, rfl, rfl, rfl⟩,
          ⟨rfl, ?_, ?_, rfl, rfl, rfl, rfl, rfl⟩⟩
  · show decide (signed8 st.regs.a = signed8 m) = decide (st.regs.a = m)
    rw [decide_eq_decide]
    exact signed8_eq_iff _ _ ha hm
  · show decide (i16Bit (signed8 st.regs.a - signed8 m) 7 = 1) =
      decide (128 ≤ (st.regs.a + 256 - m) % 256)
    rw [decide_eq_decide]
    exact i16Bit_sub_seven_iff _ _ ha hm
  · show decide (signed8 st.regs.x = signed8 m) = decide (st.regs.x = m)
    rw [decide_eq_decide]
    exact signed8_eq_iff _ _ hx hm
  · show decide (i16Bit (signed8 st.regs.x - signed8 m) 7 = 1) =
      decide (128 ≤ (st.regs.x + 256 - m) % 256)
    rw [decide_eq_decide]
    exact i16Bit_sub_seven_iff _ _ hx hm
  · show decide (signed8 st.regs.y = signed8 m) = decide (st.regs.y = m)
    rw [decide_eq_decide]
    exact signed8_eq_iff _ _ hy hm
  · show decide (i16Bit (signed8 st.regs.y - signed8 m) 7 = 1) =
      decide (128 ≤ (st.regs.y + 256 - m) % 256)
    rw [decide_eq_decide]
    exact i16Bit_sub_seven_iff _ _ hy hm

/-- Witness for C8 amended, at A = 200, X = 3, Y = 150, S = 77 and
operand 65. -/
theorem c8_compare_signed_amended_witness :
    (sampleState.regs.a < 256 ∧ sampleState.regs.x < 256 ∧
      sampleState.regs.y < 256 ∧ (65 : Nat) < 256) ∧
    (((execute sampleState ⟨.CMP, .Immediate 65⟩).flags.carry = decide (signed8 sampleState.regs.a ≥ signed8 65) ∧
      (execute sampleState ⟨.CMP, .Immediate 65⟩).flags.zero = decide (sampleState.regs.a = 65) ∧
      (execute sampleState ⟨.CMP, .Immediate 65⟩).flags.negative = decide (128 ≤ (sampleState.regs.a + 256 - 65) % 256) ∧
      (execute sampleState ⟨.CMP, .Immediate 65⟩).regs.a = sampleState.regs.a ∧
      (execute sampleState ⟨.CMP, .Immediate 65⟩).regs.x = sampleState.regs.x ∧
      (execute sampleState ⟨.CMP, .Immediate 65⟩).regs.y = sampleState.regs.y ∧
      (execute sampleState ⟨.CMP, .Immediate 65⟩).regs.s = sampleState.regs.s ∧
      (execute sampleState ⟨.CMP, .Immediate 65⟩).mem = sampleState.mem) ∧
    ((execute sampleState ⟨.CPX, .Immediate 65⟩).flags.carry = decide (signed8 sampleState.regs.x ≥ signed8 65) ∧
      (execute sampleState ⟨.CPX, .Immediate 65⟩).flags.zero = decide (sampleState.regs.x = 65) ∧
      (execute sampleState ⟨.CPX, .Immediate 65⟩).flags.negative = decide (128 ≤ (sampleState.regs.x + 256 - 65) % 256) ∧
      (execute sampleState ⟨.CPX, .Immediate 65⟩).regs.a = sampleState.regs.a ∧
      (execute sampleState ⟨.CPX, .Immediate 65⟩).regs.x = sampleState.regs.x ∧
      (execute sampleState ⟨.CPX, .Immediate 65⟩).regs.y = sampleState.regs.y ∧
      (execute sampleState ⟨.CPX, .Immediate 65⟩).regs.s = sampleState.regs.s ∧
      (execute sampleState ⟨.CPX, .Immediate 65⟩).mem = sampleState.mem) ∧
    ((execute sampleState ⟨.CPY, .Immediate 65⟩).flags.carry = decide (signed8 sampleState.regs.y ≥ signed8 65) ∧
      (execute sampleState ⟨.CPY, .Immediate 65⟩).flags.zero = decide (sampleState.regs.y = 65) ∧
      (execute sampleState ⟨.CPY, .Immediate 65⟩).flags.negative = decide (128 ≤ (sampleState.regs.y + 256 - 65) % 256) ∧
      (execute sampleState ⟨.CPY, .Immediate 65⟩).regs.a = sampleState.regs.a ∧
      (execute sampleState ⟨.CPY, .Immediate 65⟩).regs.x = sampleState.regs.x ∧
      (execute sampleState ⟨.CPY, .Immediate 65⟩).regs.y = sampleState.regs.y ∧
      (execute sampleState ⟨.CPY, .Immediate 65⟩).regs.s = sampleState.regs.s ∧
      (execute sampleState ⟨.CPY, .Immediate 65⟩).mem = sampleState.mem)) :=
  ⟨by decide,
   c8_compare_signed_amended sampleState 65 (by decide) (by decide) (by decide) (by decide)⟩

/-- C9: each of CLC, CLD, CLI, CLV, SEC, SED, SEI rewrites exactly the one
named flag and leaves everything else as it was: for every starting state
the resulting state is the input state with only that flag replaced, so the
other five flags, the registers A, X, Y, S and every memory cell are
unchanged. -/
theorem c9_status_flag_instructions_confirmed (st : CPUState) :
    execute st ⟨.CLC, .Implied⟩ = { st with flags := { st.flags with carry := false } } ∧
    execute st ⟨.CLD, .Implied⟩ = { st with flags := { st.flags with decimal := false } } ∧
    execute st ⟨.CLI, .Implied⟩ = { st with flags := { st.flags with interrupt := false } } ∧
    execute st ⟨.CLV, .Implied⟩ = { st with flags := { st.flags with overflow := false } } ∧
    execute st ⟨.SEC, .Implied⟩ = { st with flags := { st.flags with carry := true } } ∧
    execute st ⟨.SED, .Implied⟩ = { st with flags := { st.flags with decimal := true } } ∧
    execute st ⟨.SEI, .Implied⟩ = { st with flags := { st.flags with interrupt := true } } :=
  ⟨rfl, rfl, rfl, rfl, rfl, rfl, rfl⟩

/-- C10: for every pair of operand values, the two-operand addressing modes
build the address as op1 * 256 + op2, so the byte immediately after the
opcode becomes the high byte; end-to-end, reading the texts 6D1234, 7D1234,
791234 and 6C1234 yields instructions whose address is
0x1234 = 0x12 * 256 + 0x34. -/
theorem c10_absolute_high_byte_confirmed :
    (∀ op1 op2 : Nat,
      mode_to_enum "Absolute" op1 op2 = .Absolute (op1 * 256 + op2) 0 ∧
        mode_to_enum "Absolute,X" op1 op2 = .Absolute (op1 * 256 + op2) 1 ∧
        mode_to_enum "Absolute,Y" op1 op2 = .Absolute (op1 * 256 + op2) 2 ∧
        mode_to_enum "Indirect" op1 op2 = .Indirect (op1 * 256 + op2)) ∧
    read "6D1234" = .ok ⟨.ADC, .Absolute 0x1234 0⟩ ∧
    read "7D1234" = .ok ⟨.ADC, .Absolute 0x1234 1⟩ ∧
    read "791234" = .ok ⟨.ADC, .Absolute 0x1234 2⟩ ∧
    read "6C1234" = .ok ⟨.JMP, .Indirect 0x1234⟩ :=
  ⟨fun _ _ => ⟨rfl, rfl, rfl, rfl⟩, rfl, rfl, rfl, rfl⟩

end NesRust
